import Mathlib

/-!
Shallow embedding of the rendering core of `industria` (Rust, `src/`):
swapchain property negotiation, swapchain acquire/present staleness
handling, the frame scheduler, pipeline teardown, and the voxel-shader
instance allocator.  Vulkan calls are modelled by explicit effect traces
and by environment parameters carrying what the driver would return;
machine integers are modelled as `Nat`/`Int` (the source's arithmetic
never overflows on the paths embedded here, and Rust `u32`/`u64`
addition panics rather than wraps in debug builds).
-/

namespace Industria

/-! ## Vulkan value types (mirrors of `ash::vk` newtypes) -/

/-- `vk::Format` is an `i32` newtype; `UNDEFINED = 0`, `B8G8R8A8_UNORM = 44`. -/
abbrev Format := Int

def Format.UNDEFINED : Format := 0

def Format.B8G8R8A8_UNORM : Format := 44

/-- `vk::ColorSpaceKHR` is an `i32` newtype; `SRGB_NONLINEAR = 0`. -/
abbrev ColorSpaceKHR := Int

def ColorSpaceKHR.SRGB_NONLINEAR : ColorSpaceKHR := 0

/-- `vk::PresentModeKHR` is an `i32` newtype;
`IMMEDIATE = 0`, `MAILBOX = 1`, `FIFO = 2`. -/
abbrev PresentModeKHR := Int

def PresentModeKHR.IMMEDIATE : PresentModeKHR := 0

def PresentModeKHR.MAILBOX : PresentModeKHR := 1

def PresentModeKHR.FIFO : PresentModeKHR := 2

/-- `vk::Result` is an `i32` newtype; the one code the swapchain treats
specially is `ERROR_OUT_OF_DATE_KHR = -1000001004`. -/
abbrev VkResult := Int

def VkResult.ERROR_OUT_OF_DATE_KHR : VkResult := -1000001004

def VkResult.ERROR_DEVICE_LOST : VkResult := -4

/-- `vk::SurfaceFormatKHR` (src/src/renderer/swapchain.rs uses its
`format` and `color_space` fields). -/
structure SurfaceFormatKHR where
  format : Format
  color_space : ColorSpaceKHR
deriving DecidableEq, Repr

structure Extent2D where
  width : Nat
  height : Nat
deriving DecidableEq, Repr

/-- The fields of `vk::SurfaceCapabilitiesKHR` the swapchain code reads. -/
structure SurfaceCapabilitiesKHR where
  min_image_count : Nat
  max_image_count : Nat
  current_extent : Extent2D
deriving DecidableEq, Repr

/-! ## SwapchainSupportDetails (src/src/renderer/swapchain.rs:185-261) -/

structure SwapchainSupportDetails where
  capabilities : SurfaceCapabilitiesKHR
  formats : List SurfaceFormatKHR
  present_modes : List PresentModeKHR
deriving Repr

/-- `SwapchainSupportDetails::choose_swapchain_surface_format`
(swapchain.rs:230-245).  `none` models the panic of indexing
`available_formats[0]` on an empty slice. -/
def choose_swapchain_surface_format
    (available_formats : List SurfaceFormatKHR) : Option SurfaceFormatKHR :=
  match available_formats with
  | [] => none
  | f0 :: _ =>
    if available_formats.length = 1 ∧ f0.format = Format.UNDEFINED then
      some { format := Format.B8G8R8A8_UNORM
             color_space := ColorSpaceKHR.SRGB_NONLINEAR }
    else
      some ((available_formats.find? (fun f =>
        f.format = Format.B8G8R8A8_UNORM ∧
        f.color_space = ColorSpaceKHR.SRGB_NONLINEAR)).getD f0)

/-- `SwapchainSupportDetails::choose_swapchain_surface_present_mode`
(swapchain.rs:247-255). -/
def choose_swapchain_surface_present_mode
    (available_present_modes : List PresentModeKHR) : PresentModeKHR :=
  if available_present_modes.contains PresentModeKHR.MAILBOX then
    PresentModeKHR.MAILBOX
  else if available_present_modes.contains PresentModeKHR.FIFO then
    PresentModeKHR.FIFO
  else
    PresentModeKHR.IMMEDIATE

/-- `SwapchainSupportDetails::choose_swapchain_extent` (swapchain.rs:257-259). -/
def choose_swapchain_extent (capabilities : SurfaceCapabilitiesKHR) : Extent2D :=
  capabilities.current_extent

structure SwapchainProperties where
  format : SurfaceFormatKHR
  present_mode : PresentModeKHR
  extent : Extent2D
deriving DecidableEq, Repr

/-- `SwapchainSupportDetails::get_ideal_swapchain_properties`
(swapchain.rs:218-228); `none` propagates the empty-format-list panic. -/
def get_ideal_swapchain_properties
    (details : SwapchainSupportDetails) : Option SwapchainProperties :=
  match choose_swapchain_surface_format details.formats with
  | none => none
  | some format =>
    some { format
           present_mode :=
             choose_swapchain_surface_present_mode details.present_modes
           extent := choose_swapchain_extent details.capabilities }

/-- The image-count computation inside `Swapchain::new` (swapchain.rs:33-40). -/
def swapchain_image_count (capabilities : SurfaceCapabilitiesKHR) : Nat :=
  let max := capabilities.max_image_count
  let preferred := capabilities.min_image_count + 1
  if max > 0 ∧ preferred > max then max else preferred

/-- The preferred surface format hard-coded in swapchain.rs:232-235. -/
def preferredSurfaceFormat : SurfaceFormatKHR :=
  { format := Format.B8G8R8A8_UNORM
    color_space := ColorSpaceKHR.SRGB_NONLINEAR }

/-! ## Device-facing effects

Every call the embedded code makes into the Vulkan device is recorded as
an `Event`; handles are `Nat` identifiers. -/

inductive Event where
  | waitForFences (fence : Nat) : Event
  | resetFences (fence : Nat) : Event
  | acquireNextImage (image_available_semaphore : Nat) : Event
  | queuePresent (render_complete_semaphore : Nat) (image_index : Nat) : Event
  | destroyImageView (view : Nat) : Event
  | destroySwapchain (handle : Nat) : Event
  | createSwapchain : Event
  | deviceWaitIdle : Event
  | destroyPipelineHandle (handle : Nat) : Event
  | destroyPipelineLayout (layout : Nat) : Event
deriving DecidableEq, Repr

/-! ## Swapchain state and operations (src/src/renderer/swapchain.rs) -/

/-- The fields of `Swapchain` (swapchain.rs:5-14); image views are the
`Nat` handles returned by `create_image_view`, one per image. -/
structure Swapchain where
  out_of_date : Bool
  image_views : List Nat
  images : List Nat
  swapchain_properties : SwapchainProperties
  handle : Nat
deriving DecidableEq, Repr

/-- What the driver returns during `Swapchain::new`: the created chain
handle, the images of the chain, and one view handle per created view.
`create_image_view` lives in the repository's `renderer/utility.rs`,
which is not under `src/`; modelled from the spec: it creates one 2D
color image view per image, so here the environment supplies the
resulting view handles. -/
structure SwapchainEnv where
  details : SwapchainSupportDetails
  chain_handle : Nat
  images : List Nat
  view_of : Nat → Nat

/-- `Swapchain::new` (swapchain.rs:17-105): negotiate properties from the
queried support details, create the chain, fetch its images, create one
view per image; the dirty flag starts `false`.  `none` models the panic
on an empty surface-format list. -/
def Swapchain.new (env : SwapchainEnv) : Option Swapchain :=
  match get_ideal_swapchain_properties env.details with
  | none => none
  | some properties =>
    some { out_of_date := false
           image_views := env.images.map env.view_of
           images := env.images
           swapchain_properties := properties
           handle := env.chain_handle }

/-- `Swapchain::destroy` (swapchain.rs:107-114): destroy every image view,
then the chain handle. -/
def Swapchain.destroy (sc : Swapchain) : List Event :=
  (sc.image_views.map Event.destroyImageView) ++ [Event.destroySwapchain sc.handle]

/-- The driver's reply to `acquire_next_image`: `ok (index, suboptimal)`
or an error code. -/
abbrev AcquireReply := Except VkResult (Nat × Bool)

/-- `Swapchain::acquire_next_image_index` (swapchain.rs:118-142), as a
function of the driver's reply.  The outer `Option` is the panic monad:
the body contains no `unwrap`/`panic`, so the result is always `some`.
`Ok((i, _))` yields the index; `Err(ERROR_OUT_OF_DATE_KHR)` sets the
dirty flag and yields no index; any other `Err` falls into the `_` arm
and yields no index with the state unchanged. -/
def Swapchain.acquire_next_image_index (sc : Swapchain) (reply : AcquireReply) :
    Option (Option Nat × Swapchain) :=
  match reply with
  | .ok (image_index, _) => some (some image_index, sc)
  | .error e =>
    if e = VkResult.ERROR_OUT_OF_DATE_KHR then
      some (none, { sc with out_of_date := true })
    else
      some (none, sc)

/-- The driver's reply to `queue_present`: `ok suboptimal` or an error. -/
abbrev PresentReply := Except VkResult Bool

/-- `Swapchain::present` (swapchain.rs:144-175), as a function of the
driver's reply.  `Ok(true)` returns `true` early; `Err(ERROR_OUT_OF_DATE_KHR)`
sets the dirty flag and falls through to `false`; any other `Err`
panics (`none`); `Ok(false)` falls through to `false`. -/
def Swapchain.present (sc : Swapchain) (reply : PresentReply) :
    Option (Bool × Swapchain) :=
  match reply with
  | .ok true => some (true, sc)
  | .ok false => some (false, sc)
  | .error e =>
    if e = VkResult.ERROR_OUT_OF_DATE_KHR then
      some (false, { sc with out_of_date := true })
    else
      none

/-! ## Pipeline (src/src/renderer/pipeline.rs) -/

structure Pipeline where
  handle : Nat
  layout : Nat
deriving DecidableEq, Repr

/-- `Pipeline::destroy` (pipeline.rs:47-52): the source calls
`destroy_pipeline_layout(self.layout)` first and `destroy_pipeline(self.handle)`
second; the trace records that order. -/
def Pipeline.destroy (p : Pipeline) : List Event :=
  [Event.destroyPipelineLayout p.layout, Event.destroyPipelineHandle p.handle]

/-! ## Renderer frame scheduling (src/src/renderer.rs) -/

/-- `MAX_FRAMES_IN_FLIGHT` (renderer.rs:18). -/
def MAX_FRAMES_IN_FLIGHT : Nat := 2

/-- `SyncObject` (renderer.rs:158-163); handles are `Nat` identifiers. -/
structure SyncObject where
  image_available_semaphore : Nat
  queue_complete_semaphore : Nat
  in_flight_fence : Nat
deriving DecidableEq, Repr, Inhabited

/-- The mutable fields of `Renderer` (renderer.rs:20-29) that the frame
loop touches; `vk_context` and `voxel_shader` are kept as opaque data so
that their preservation can be stated.  `current_frame` is the `u64`
cursor (always `< MAX_FRAMES_IN_FLIGHT` in reachable states, so the
`u64` wrap of `current_frame + 1` never fires). -/
structure Renderer (V : Type) where
  voxel_shader : V
  current_frame : Nat
  sync_objects : List SyncObject
  command_pool : Nat
  swapchain : Swapchain
  vk_context : Nat
deriving DecidableEq, Repr

/-- The cursor update inside `Renderer::next_sync_object` (renderer.rs:119). -/
def next_frame_cursor (current_frame : Nat) : Nat :=
  (current_frame + 1) % MAX_FRAMES_IN_FLIGHT

/-- `Renderer::next_sync_object` (renderer.rs:116-122): return the slot at
the current cursor, then advance the cursor modulo `MAX_FRAMES_IN_FLIGHT`.
`none` models the panic of `self.sync_objects[self.current_frame]` when
the cursor is out of bounds (never in reachable states). -/
def Renderer.next_sync_object (r : Renderer V) :
    Option (SyncObject × Renderer V) :=
  match r.sync_objects.get? r.current_frame with
  | none => none
  | some next =>
    some (next, { r with current_frame := next_frame_cursor r.current_frame })

/-- The cursor after `k` calls to `next_sync_object`, starting from the
initial `current_frame = 0` set in `Renderer::new` (renderer.rs:79); the
index returned by call `k + 1` is `cursor_after k`. -/
def cursor_after (k : Nat) : Nat :=
  Nat.rec 0 (fun _ c => next_frame_cursor c) k

/-- `Renderer::begin_frame` (renderer.rs:89-108), as a function of the
driver's acquire reply.  It takes the next sync object (advancing the
cursor), waits on the slot's in-flight fence, acquires the next image
with the slot's image-available semaphore, and — only when an index was
acquired — resets the fence; it returns `true` on both paths.  The
outer `Option` is the panic monad (out-of-bounds slot index; the
`unwrap`s on wait/reset are modelled as succeeding). -/
def Renderer.begin_frame (r : Renderer V) (reply : AcquireReply) :
    Option (Bool × Renderer V × List Event) :=
  match r.next_sync_object with
  | none => none
  | some (sync_object, r1) =>
    let wait_ev := Event.waitForFences sync_object.in_flight_fence
    let acq_ev := Event.acquireNextImage sync_object.image_available_semaphore
    match r1.swapchain.acquire_next_image_index reply with
    | none => none
    | some (next_image_index, sc) =>
      let r2 := { r1 with swapchain := sc }
      match next_image_index with
      | none => some (true, r2, [wait_ev, acq_ev])
      | some _ =>
        some (true, r2,
          [wait_ev, acq_ev, Event.resetFences sync_object.in_flight_fence])

/-- `VkContext::wait_gpu_idle`, called by `recreate_swapchain`
(renderer.rs:127) but defined in repository code not under `src/`;
modelled from the spec: `wait_idle()` blocks until all queued GPU work
completes — a single device-wide wait effect. -/
def wait_gpu_idle_trace : List Event :=
  [Event.deviceWaitIdle]

/-- `Renderer::recreate_swapchain` (renderer.rs:124-134): wait for the
device to go idle, destroy the current swapchain, create a new one
against the freshly queried surface support (the `env` parameter), and
store it; no other field is written.  `none` models the panic inside
`Swapchain::new` on an empty format list. -/
def Renderer.recreate_swapchain (r : Renderer V) (env : SwapchainEnv) :
    Option (Renderer V × List Event) :=
  match Swapchain.new env with
  | none => none
  | some sc =>
    some ({ r with swapchain := sc },
      wait_gpu_idle_trace ++ r.swapchain.destroy ++ [Event.createSwapchain])

/-! ## Event classifiers used to state ordering properties -/

def Event.isResetFences : Event → Bool
  | .resetFences _ => true
  | _ => false

def Event.isAcquireNextImage : Event → Bool
  | .acquireNextImage _ => true
  | _ => false

def Event.isDestroyPipelineHandle : Event → Bool
  | .destroyPipelineHandle _ => true
  | _ => false

def Event.isDestroyPipelineLayout : Event → Bool
  | .destroyPipelineLayout _ => true
  | _ => false

/-- The ordering stated by the spec's per-frame protocol: a fence reset
appears in the trace strictly before the image acquisition. -/
def reset_precedes_acquire (tr : List Event) : Prop :=
  tr.findIdx Event.isResetFences < tr.findIdx Event.isAcquireNextImage

/-- The ordering stated by the spec for `Pipeline::destroy`: the pipeline
handle is destroyed strictly before the pipeline layout. -/
def pipeline_destroyed_before_layout (tr : List Event) : Prop :=
  tr.findIdx Event.isDestroyPipelineHandle <
    tr.findIdx Event.isDestroyPipelineLayout

/-! ## FreeList and the voxel-shader instance allocator
(src/src/renderer/shader.rs) -/

/-- Modelled from the spec: `FreeList<T>` lives in `crate::container`,
which is not under `src/` (shader.rs:4 only imports it).  Spec: "a
slot-based container over T with O(1) allocation (reuses the
most-recently-freed slot index) and O(1) release; indices are stable
until release", realized as "a dense array of optional slots plus a
singly-linked free chain of vacant indices".  `push_first` "inserts the
new instance into the first free slot of the free list, and returns that
slot's index". -/
structure FreeList (α : Type) where
  slots : List (Option α)
  free_chain : List Nat
deriving DecidableEq, Repr

/-- Modelled from the spec: `FreeList::with_capacity` only reserves
memory; the container starts with no live slots and no vacant indices. -/
def FreeList.with_capacity (α : Type) (capacity : Nat) : FreeList α :=
  let _ := capacity
  { slots := [], free_chain := [] }

/-- Modelled from the spec: insert into the first vacant slot of the free
chain, else append a fresh slot; return the slot's stable index. -/
def FreeList.push_first (fl : FreeList α) (v : α) : Nat × FreeList α :=
  match fl.free_chain with
  | index :: rest =>
    (index, { slots := fl.slots.set index (some v), free_chain := rest })
  | [] =>
    (fl.slots.length, { slots := fl.slots ++ [some v], free_chain := [] })

/-- In-place update of a live slot, as done through `as_slice_mut()`
(shader.rs:178); out-of-range indices are left untouched (the source
would panic there; the embedded callers only use in-range indices). -/
def FreeList.modify_at (fl : FreeList α) (index : Nat) (f : α → α) :
    FreeList α :=
  match fl.slots.get? index with
  | some (some v) => { fl with slots := fl.slots.set index (some (f v)) }
  | _ => fl

/-- `VoxelShaderInstance` (shader.rs:211-214): its stamped id and the
number of descriptor sets it holds (one per swapchain image). -/
structure VoxelShaderInstance where
  id : Nat
  descriptor_sets : Nat
deriving DecidableEq, Repr

/-- Remaining capacity of a Vulkan descriptor pool.  This models the
driver's strict pool accounting: allocating `n` sets that each consume
`per_set` storage-buffer descriptors succeeds iff both the remaining
set count and the remaining descriptor count suffice, and fails
(`ERROR_OUT_OF_POOL_MEMORY`) otherwise. -/
structure DescriptorPool where
  sets_remaining : Nat
  storage_buffer_remaining : Nat
deriving DecidableEq, Repr

def DescriptorPool.allocate_sets (p : DescriptorPool) (n : Nat)
    (per_set : Nat) : Option DescriptorPool :=
  if n ≤ p.sets_remaining ∧ n * per_set ≤ p.storage_buffer_remaining then
    some { sets_remaining := p.sets_remaining - n
           storage_buffer_remaining := p.storage_buffer_remaining - n * per_set }
  else
    none

/-- The fields of `VoxelShader` (shader.rs:6-19) that the instance
allocator reads: `global_sets_len` stands for `global_sets.len()`
(= the swapchain image count). -/
structure VoxelShader where
  max_instance_count : Nat
  instances : FreeList VoxelShaderInstance
  global_sets_len : Nat
  instance_descriptor_pool : DescriptorPool
deriving DecidableEq, Repr

/-- The allocator-relevant part of `VoxelShader::new` (shader.rs:22-144):
`max_instance_count = 1000` (shader.rs:23); the instance descriptor pool
is created with `max_sets = swapchain_image_count * max_instance_count`
and one pool size of `2 * swapchain_image_count` STORAGE_BUFFER
descriptors (shader.rs:99-113); the free list starts empty with
capacity 3 (shader.rs:136); one global set per swapchain image
(shader.rs:115-124). -/
def VoxelShader.new (swapchain_image_count : Nat) : VoxelShader :=
  let max_instance_count := 1000
  { max_instance_count
    instances := FreeList.with_capacity VoxelShaderInstance 3
    global_sets_len := swapchain_image_count
    instance_descriptor_pool :=
      { sets_remaining := swapchain_image_count * max_instance_count
        storage_buffer_remaining := 2 * swapchain_image_count } }

/-- `VoxelShader::allocate_instance` (shader.rs:160-181): allocate one
descriptor set per swapchain image from the instance pool (`unwrap` —
`none` models the panic on pool exhaustion), insert the instance into
the free list, stamp the returned index onto it, and return the index.
There is no check against `max_instance_count` and no error path: the
return type in the source is a bare `u32`. -/
def VoxelShader.allocate_instance (s : VoxelShader) :
    Option (Nat × VoxelShader) :=
  match s.instance_descriptor_pool.allocate_sets s.global_sets_len 2 with
  | none => none
  | some pool =>
    let new_instance : VoxelShaderInstance :=
      { id := 0, descriptor_sets := s.global_sets_len }
    let (index, instances1) := s.instances.push_first new_instance
    let instances2 :=
      instances1.modify_at index (fun inst => { inst with id := index })
    some (index,
      { s with instances := instances2, instance_descriptor_pool := pool })

/-! ## Concrete fixtures for witnesses and counterexamples -/

def sampleSyncObjects : List SyncObject :=
  [⟨10, 11, 12⟩, ⟨20, 21, 22⟩]

def sampleProperties : SwapchainProperties :=
  { format := preferredSurfaceFormat
    present_mode := PresentModeKHR.FIFO
    extent := ⟨800, 600⟩ }

def sampleSwapchain : Swapchain :=
  { out_of_date := false
    image_views := [40, 41, 42]
    images := [30, 31, 32]
    swapchain_properties := sampleProperties
    handle := 3 }

def sampleRenderer (current_frame : Nat) : Renderer Nat :=
  { voxel_shader := 0
    current_frame := current_frame
    sync_objects := sampleSyncObjects
    command_pool := 7
    swapchain := sampleSwapchain
    vk_context := 1 }

def sampleEnv : SwapchainEnv :=
  { details :=
      { capabilities :=
          { min_image_count := 2, max_image_count := 4,
            current_extent := ⟨1024, 768⟩ }
        formats := [preferredSurfaceFormat]
        present_modes := [PresentModeKHR.FIFO] }
    chain_handle := 9
    images := [60, 61, 62]
    view_of := fun image => image + 10 }

def sampleNewSwapchain : Swapchain :=
  { out_of_date := false
    image_views := [70, 71, 72]
    images := [60, 61, 62]
    swapchain_properties :=
      { format := preferredSurfaceFormat
        present_mode := PresentModeKHR.FIFO
        extent := ⟨1024, 768⟩ }
    handle := 9 }

/-! ## Helper lemmas -/

lemma surfaceFormat_pred_iff (f : SurfaceFormatKHR) :
    (decide (f.format = Format.B8G8R8A8_UNORM ∧
      f.color_space = ColorSpaceKHR.SRGB_NONLINEAR) = true) ↔
    f = preferredSurfaceFormat := by
  cases f with
  | mk fo cs =>
    simp [preferredSurfaceFormat, SurfaceFormatKHR.mk.injEq, and_comm]

lemma cursor_after_succ (k : Nat) :
    cursor_after (k + 1) = next_frame_cursor (cursor_after k) := rfl

lemma cursor_after_eq_mod (k : Nat) : cursor_after k = k % 2 := by
  induction k with
  | zero => rfl
  | succ n ih =>
    rw [cursor_after_succ, ih, next_frame_cursor, MAX_FRAMES_IN_FLIGHT]
    omega

end Industria

namespace Industria

/-! ## Claim theorems -/

/-- C5: for every non-empty list of available surface formats,
`choose_swapchain_surface_format` returns the fixed preferred pair
(`B8G8R8A8_UNORM`, `SRGB_NONLINEAR`) if the list is exactly one entry
whose format is `UNDEFINED`; that exact preferred pair if the list
contains it; otherwise the first listed format. -/
theorem C5_choose_swapchain_surface_format (f0 : SurfaceFormatKHR)
    (rest : List SurfaceFormatKHR) :
    ((f0 :: rest).length = 1 ∧ f0.format = Format.UNDEFINED →
      choose_swapchain_surface_format (f0 :: rest) =
        some preferredSurfaceFormat) ∧
    (preferredSurfaceFormat ∈ f0 :: rest →
      choose_swapchain_surface_format (f0 :: rest) =
        some preferredSurfaceFormat) ∧
    (¬ ((f0 :: rest).length = 1 ∧ f0.format = Format.UNDEFINED) →
      preferredSurfaceFormat ∉ f0 :: rest →
      choose_swapchain_surface_format (f0 :: rest) = some f0) := by
  refine ⟨fun h => ?_, fun hmem => ?_, fun hnot hnmem => ?_⟩
  · simp only [choose_swapchain_surface_format, if_pos h]
    rfl
  · by_cases h : (f0 :: rest).length = 1 ∧ f0.format = Format.UNDEFINED
    · -- the singleton-undefined case cannot contain the preferred pair
      rcases h with ⟨hlen, hfmt⟩
      have hrest : rest = [] := by
        cases rest with
        | nil => rfl
        | cons a l => simp at hlen
      subst hrest
      simp only [List.mem_singleton] at hmem
      rw [← hmem] at hfmt
      simp [preferredSurfaceFormat, Format.B8G8R8A8_UNORM,
        Format.UNDEFINED] at hfmt
    · simp only [choose_swapchain_surface_format, if_neg h]
      have hfind : ((f0 :: rest).find? (fun f =>
          f.format = Format.B8G8R8A8_UNORM ∧
          f.color_space = ColorSpaceKHR.SRGB_NONLINEAR)) =
          some preferredSurfaceFormat := by
        cases hx : (f0 :: rest).find? (fun f =>
            f.format = Format.B8G8R8A8_UNORM ∧
            f.color_space = ColorSpaceKHR.SRGB_NONLINEAR) with
        | none =>
          rw [List.find?_eq_none] at hx
          exact absurd (by decide :
            decide (preferredSurfaceFormat.format = Format.B8G8R8A8_UNORM ∧
              preferredSurfaceFormat.color_space =
                ColorSpaceKHR.SRGB_NONLINEAR) = true)
            (hx preferredSurfaceFormat hmem)
        | some a =>
          have hpa : a = preferredSurfaceFormat :=
            (surfaceFormat_pred_iff a).mp (by simpa using List.find?_some hx)
          rw [hpa]
      rw [hfind]
      rfl
  · simp only [choose_swapchain_surface_format, if_neg hnot]
    have hfind : ((f0 :: rest).find? (fun f =>
        f.format = Format.B8G8R8A8_UNORM ∧
        f.color_space = ColorSpaceKHR.SRGB_NONLINEAR)) = none := by
      rw [List.find?_eq_none]
      intro x hx hpx
      exact hnmem (surfaceFormat_pred_iff x |>.mp hpx ▸ hx)
    rw [hfind]
    rfl

/-- C5 witness: on the singleton undefined-format list the preferred pair
is returned. -/
theorem C5_choose_swapchain_surface_format_witness :
    choose_swapchain_surface_format
      [{ format := Format.UNDEFINED, color_space := 5 }] =
      some preferredSurfaceFormat :=
  (C5_choose_swapchain_surface_format
    { format := Format.UNDEFINED, color_space := 5 } []).1 (by decide)

/-- C6: for every list of available present modes (in particular all eight
subsets of mailbox/FIFO/immediate), `choose_swapchain_surface_present_mode`
returns mailbox if mailbox is present, else FIFO if FIFO is present, else
immediate. -/
theorem C6_choose_swapchain_surface_present_mode
    (available_present_modes : List PresentModeKHR) :
    choose_swapchain_surface_present_mode available_present_modes =
      if PresentModeKHR.MAILBOX ∈ available_present_modes then
        PresentModeKHR.MAILBOX
      else if PresentModeKHR.FIFO ∈ available_present_modes then
        PresentModeKHR.FIFO
      else
        PresentModeKHR.IMMEDIATE := by
  simp [choose_swapchain_surface_present_mode, List.elem_iff]

/-- C7: the requested swapchain image count is
`min(min_image_count + 1, max_image_count)` when a maximum is declared
(`max_image_count > 0`) and `min_image_count + 1` when it is not; in
particular `{min 2, max 4} → 3`, `{min 3, max 3} → 3`, `{min 2, max 0} → 3`. -/
theorem C7_swapchain_image_count (capabilities : SurfaceCapabilitiesKHR) :
    (capabilities.max_image_count > 0 →
      swapchain_image_count capabilities =
        min (capabilities.min_image_count + 1) capabilities.max_image_count) ∧
    (capabilities.max_image_count = 0 →
      swapchain_image_count capabilities =
        capabilities.min_image_count + 1) ∧
    swapchain_image_count
      { min_image_count := 2, max_image_count := 4,
        current_extent := ⟨800, 600⟩ } = 3 ∧
    swapchain_image_count
      { min_image_count := 3, max_image_count := 3,
        current_extent := ⟨800, 600⟩ } = 3 ∧
    swapchain_image_count
      { min_image_count := 2, max_image_count := 0,
        current_extent := ⟨800, 600⟩ } = 3 := by
  refine ⟨fun hmax => ?_, fun hmax => ?_, by decide, by decide, by decide⟩
  · simp only [swapchain_image_count]
    split_ifs with h <;> omega
  · simp only [swapchain_image_count]
    split_ifs with h <;> omega

/-- C7 witness: the `{min 2, max 4}` capabilities instance. -/
theorem C7_swapchain_image_count_witness :
    swapchain_image_count
      { min_image_count := 2, max_image_count := 4,
        current_extent := ⟨800, 600⟩ } = min 3 4 :=
  (C7_swapchain_image_count
    { min_image_count := 2, max_image_count := 4,
      current_extent := ⟨800, 600⟩ }).1 (by decide)

/-- C8: starting from the initial cursor 0, the slot index produced by
call `k + 1` to `next_sync_object` is `cursor_after k = k % 2` (so the
sequence is 0,1,0,1,... with period `MAX_FRAMES_IN_FLIGHT = 2`), the
cursor is back at 0 after any even number `2 * k` of calls, and
`next_sync_object` at cursor `cursor_after k` returns the slot at index
`k % 2` while advancing the cursor to `cursor_after (k + 1)`. -/
theorem C8_next_sync_object_cycles {V : Type} (k : Nat) (r : Renderer V)
    (hlen : r.sync_objects.length = MAX_FRAMES_IN_FLIGHT)
    (hcur : r.current_frame = cursor_after k) :
    cursor_after k = k % 2 ∧
    cursor_after (2 * k) = 0 ∧
    r.next_sync_object =
      some (r.sync_objects.getD (k % 2) default,
        { r with current_frame := cursor_after (k + 1) }) := by
  refine ⟨cursor_after_eq_mod k, by simp [cursor_after_eq_mod], ?_⟩
  have hlt : k % 2 < r.sync_objects.length := by
    rw [hlen, MAX_FRAMES_IN_FLIGHT]
    omega
  have hget : r.sync_objects.get? (cursor_after k) =
      some (r.sync_objects.getD (k % 2) default) := by
    rw [cursor_after_eq_mod, List.getD_eq_getElem _ _ hlt, List.get?_eq_getElem?]
    exact List.getElem?_eq_getElem hlt
  simp only [Renderer.next_sync_object, hcur, hget, cursor_after_succ]

/-- C8 witness: with a two-slot renderer at the cursor reached after three
calls, the fourth call returns slot index 1 and moves the cursor to 0. -/
theorem C8_next_sync_object_cycles_witness :
    cursor_after 3 = 3 % 2 ∧
    cursor_after 6 = 0 ∧
    (sampleRenderer (cursor_after 3)).next_sync_object =
      some (sampleSyncObjects.getD (3 % 2) default,
        sampleRenderer (cursor_after 4)) :=
  C8_next_sync_object_cycles 3 (sampleRenderer (cursor_after 3))
    (by decide) rfl

/-- C1 counterexample: an acquire error other than `ERROR_OUT_OF_DATE_KHR`
(here `ERROR_DEVICE_LOST = -4`) is not fatal — `acquire_next_image_index`
returns normally (no panic), yields no index, and leaves the dirty flag
unchanged, contradicting "every acquire or present error other than the
out-of-date code is fatal". -/
theorem C1_counterexample_acquire_error_not_fatal :
    sampleSwapchain.acquire_next_image_index
        (.error VkResult.ERROR_DEVICE_LOST) =
      some (none, sampleSwapchain) ∧
    VkResult.ERROR_DEVICE_LOST ≠ VkResult.ERROR_OUT_OF_DATE_KHR ∧
    sampleSwapchain.out_of_date = false := by
  decide

/-- C1 (amended): acquire returns the stale outcome (no index, dirty flag
set) exactly on the out-of-date code, and any other acquire error also
returns non-fatally, with no index and the dirty flag unchanged; present
sets the dirty flag and returns non-fatally exactly on the out-of-date
code, and every other present error is fatal (panic). -/
theorem C1_staleness_amended (sc : Swapchain) (i : Nat) (sub : Bool)
    (e : VkResult) :
    (sc.acquire_next_image_index (.ok (i, sub)) = some (some i, sc)) ∧
    (sc.acquire_next_image_index (.error VkResult.ERROR_OUT_OF_DATE_KHR) =
      some (none, { sc with out_of_date := true })) ∧
    (e ≠ VkResult.ERROR_OUT_OF_DATE_KHR →
      sc.acquire_next_image_index (.error e) = some (none, sc)) ∧
    (sc.present (.ok true) = some (true, sc)) ∧
    (sc.present (.ok false) = some (false, sc)) ∧
    (sc.present (.error VkResult.ERROR_OUT_OF_DATE_KHR) =
      some (false, { sc with out_of_date := true })) ∧
    (e ≠ VkResult.ERROR_OUT_OF_DATE_KHR → sc.present (.error e) = none) := by
  refine ⟨rfl, by simp [Swapchain.acquire_next_image_index],
    fun h => ?_, rfl, rfl, by simp [Swapchain.present], fun h => ?_⟩
  · simp [Swapchain.acquire_next_image_index, h]
  · simp [Swapchain.present, h]

/-- C1 witness: at `ERROR_DEVICE_LOST` the acquire branch returns
normally while the present branch panics. -/
theorem C1_staleness_amended_witness :
    sampleSwapchain.acquire_next_image_index
        (.error VkResult.ERROR_DEVICE_LOST) =
      some (none, sampleSwapchain) ∧
    sampleSwapchain.present (.error VkResult.ERROR_DEVICE_LOST) = none :=
  ⟨(C1_staleness_amended sampleSwapchain 0 false
      VkResult.ERROR_DEVICE_LOST).2.2.1 (by decide),
   (C1_staleness_amended sampleSwapchain 0 false
      VkResult.ERROR_DEVICE_LOST).2.2.2.2.2.2 (by decide)⟩

/-- C2 counterexample: on a begun frame with a successful acquisition,
the recorded per-slot operations are wait-fence, acquire, reset-fence —
the fence reset does not precede the acquisition attempt. -/
theorem C2_counterexample_reset_after_acquire :
    (sampleRenderer 0).begin_frame (.ok (0, false)) =
      some (true, sampleRenderer 1,
        [Event.waitForFences 12, Event.acquireNextImage 10,
         Event.resetFences 12]) ∧
    ¬ reset_precedes_acquire
        [Event.waitForFences 12, Event.acquireNextImage 10,
         Event.resetFences 12] := by
  refine ⟨by decide, ?_⟩
  unfold reset_precedes_acquire
  decide

/-- C2 (amended): in every frame begun via `begin_frame`, whatever the
driver's acquire reply, the per-slot operations occur in the order: wait
on the slot's in-flight fence, then acquire the next swapchain image
with the slot's image-available semaphore, then — only when an index was
acquired (an `ok` reply) — reset the fence; on every `error` reply the
trace ends after the acquisition with no fence reset at all, and when
the reset occurs it follows, not precedes, the acquisition attempt. -/
theorem C2_frame_order_amended {V : Type} (r : Renderer V)
    (slot : SyncObject) (r1 : Renderer V) (reply : AcquireReply)
    (hslot : r.next_sync_object = some (slot, r1)) :
    (∀ i : Nat, ∀ sub : Bool, reply = .ok (i, sub) →
      r.begin_frame reply =
        some (true, r1,
          [Event.waitForFences slot.in_flight_fence,
           Event.acquireNextImage slot.image_available_semaphore,
           Event.resetFences slot.in_flight_fence])) ∧
    (∀ e : VkResult, reply = .error e →
      (r.begin_frame reply).map (fun x => (x.1, x.2.2)) =
        some (true,
          [Event.waitForFences slot.in_flight_fence,
           Event.acquireNextImage slot.image_available_semaphore])) ∧
    ¬ reset_precedes_acquire
        [Event.waitForFences slot.in_flight_fence,
         Event.acquireNextImage slot.image_available_semaphore,
         Event.resetFences slot.in_flight_fence] ∧
    (∀ fence : Nat,
      Event.resetFences fence ∉
        [Event.waitForFences slot.in_flight_fence,
         Event.acquireNextImage slot.image_available_semaphore]) := by
  refine ⟨fun i sub hok => ?_, fun e herr => ?_, ?_, fun fence => by simp⟩
  · subst hok
    simp only [Renderer.begin_frame, hslot, Swapchain.acquire_next_image_index]
  · subst herr
    by_cases he : e = VkResult.ERROR_OUT_OF_DATE_KHR <;>
      simp [Renderer.begin_frame, hslot, Swapchain.acquire_next_image_index, he]
  · simp [reset_precedes_acquire, List.findIdx_cons, Event.isResetFences,
      Event.isAcquireNextImage]

/-- C2 witness: the concrete two-slot renderer, first frame, exercised on
both a successful acquire reply (reset recorded last) and a device-lost
error reply (no reset recorded). -/
theorem C2_frame_order_amended_witness :
    (sampleRenderer 0).begin_frame (.ok (3, false)) =
      some (true, sampleRenderer 1,
        [Event.waitForFences 12, Event.acquireNextImage 10,
         Event.resetFences 12]) ∧
    ((sampleRenderer 0).begin_frame
        (.error VkResult.ERROR_DEVICE_LOST)).map (fun x => (x.1, x.2.2)) =
      some (true, [Event.waitForFences 12, Event.acquireNextImage 10]) :=
  ⟨(C2_frame_order_amended (sampleRenderer 0) ⟨10, 11, 12⟩
      (sampleRenderer 1) (.ok (3, false)) (by decide)).1 3 false rfl,
   (C2_frame_order_amended (sampleRenderer 0) ⟨10, 11, 12⟩
      (sampleRenderer 1) (.error VkResult.ERROR_DEVICE_LOST)
      (by decide)).2.1 VkResult.ERROR_DEVICE_LOST rfl⟩

/-- C3 counterexample: `Pipeline::destroy` on the pipeline with handle 1
and layout 2 records the layout destruction first, so the pipeline
handle is not released before the layout. -/
theorem C3_counterexample_layout_destroyed_first :
    Pipeline.destroy { handle := 1, layout := 2 } =
      [Event.destroyPipelineLayout 2, Event.destroyPipelineHandle 1] ∧
    ¬ pipeline_destroyed_before_layout
        (Pipeline.destroy { handle := 1, layout := 2 }) := by
  refine ⟨by decide, ?_⟩
  unfold pipeline_destroyed_before_layout
  decide

/-- C3 (amended): `Pipeline::destroy` releases the pipeline layout handle
strictly before the compute pipeline handle — the opposite of the
destruction order stated by the spec. -/
theorem C3_destroy_order_amended (p : Pipeline) :
    p.destroy =
      [Event.destroyPipelineLayout p.layout,
       Event.destroyPipelineHandle p.handle] ∧
    p.destroy.findIdx Event.isDestroyPipelineLayout <
      p.destroy.findIdx Event.isDestroyPipelineHandle := by
  refine ⟨rfl, ?_⟩
  simp [Pipeline.destroy, List.findIdx_cons, Event.isDestroyPipelineLayout,
    Event.isDestroyPipelineHandle]

/-- C4 evaluation at the failing input: with one swapchain image, the
first `allocate_instance` succeeds with handle 0, but the second call
already panics (`none`) because the instance descriptor pool's
storage-buffer capacity (`2 * swapchain_image_count`) only covers one
instance, even though its `max_sets` is
`swapchain_image_count * max_instance_count`; no allocation-exhaustion
error is ever surfaced to the caller. -/
theorem C4_allocate_instance_panics_on_exhaustion :
    ((VoxelShader.new 1).allocate_instance).map (fun x => x.1) = some 0 ∧
    ((VoxelShader.new 1).allocate_instance).bind
      (fun x => x.2.allocate_instance) = none ∧
    (VoxelShader.new 1).instance_descriptor_pool.sets_remaining = 1 * 1000 ∧
    (VoxelShader.new 1).instance_descriptor_pool.storage_buffer_remaining =
      2 * 1 ∧
    (VoxelShader.new 1).max_instance_count = 1000 := by
  decide

/-- C9: `recreate_swapchain` waits for the device to go idle, destroys
the current swapchain (views, then the chain), and replaces it with the
newly created one; every other field of the renderer — voxel shader,
current frame cursor, sync-object slots, command pool, and graphics
context — is unchanged. -/
theorem C9_recreate_swapchain_replaces_only_swapchain {V : Type}
    (r : Renderer V) (env : SwapchainEnv) (sc : Swapchain)
    (hsc : Swapchain.new env = some sc) :
    r.recreate_swapchain env =
      some ({ voxel_shader := r.voxel_shader
              current_frame := r.current_frame
              sync_objects := r.sync_objects
              command_pool := r.command_pool
              swapchain := sc
              vk_context := r.vk_context },
        [Event.deviceWaitIdle] ++ r.swapchain.destroy ++
          [Event.createSwapchain]) := by
  simp only [Renderer.recreate_swapchain, hsc, wait_gpu_idle_trace]

/-- C9 witness: the sample renderer against the sample surface
environment. -/
theorem C9_recreate_swapchain_replaces_only_swapchain_witness :
    (sampleRenderer 0).recreate_swapchain sampleEnv =
      some ({ voxel_shader := 0
              current_frame := 0
              sync_objects := sampleSyncObjects
              command_pool := 7
              swapchain := sampleNewSwapchain
              vk_context := 1 },
        [Event.deviceWaitIdle] ++ sampleSwapchain.destroy ++
          [Event.createSwapchain]) :=
  C9_recreate_swapchain_replaces_only_swapchain (sampleRenderer 0)
    sampleEnv sampleNewSwapchain rfl

/-- C10: when acquisition reports out-of-date, `begin_frame` still
returns `true`, the slot's in-flight fence is not reset (no reset-fence
effect is issued, so the fence stays signaled and a later wait on it
cannot block), and the only state changes are the advanced frame cursor
and the swapchain's `out_of_date` flag. -/
theorem C10_begin_frame_stale_path {V : Type} (r : Renderer V)
    (hlt : r.current_frame < r.sync_objects.length) :
    r.begin_frame (.error VkResult.ERROR_OUT_OF_DATE_KHR) =
      some (true,
        { voxel_shader := r.voxel_shader
          current_frame := next_frame_cursor r.current_frame
          sync_objects := r.sync_objects
          command_pool := r.command_pool
          swapchain := { r.swapchain with out_of_date := true }
          vk_context := r.vk_context },
        [Event.waitForFences
           (r.sync_objects.getD r.current_frame default).in_flight_fence,
         Event.acquireNextImage
           (r.sync_objects.getD r.current_frame
             default).image_available_semaphore]) ∧
    (∀ fence : Nat,
      Event.resetFences fence ∉
        [Event.waitForFences
           (r.sync_objects.getD r.current_frame default).in_flight_fence,
         Event.acquireNextImage
           (r.sync_objects.getD r.current_frame
             default).image_available_semaphore]) := by
  have hget : r.sync_objects.get? r.current_frame =
      some (r.sync_objects.getD r.current_frame default) := by
    rw [List.getD_eq_getElem _ _ hlt, List.get?_eq_getElem?]
    exact List.getElem?_eq_getElem hlt
  constructor
  · simp only [Renderer.begin_frame, Renderer.next_sync_object, hget,
      Swapchain.acquire_next_image_index]
    simp
  · intro fence
    simp

/-- C10 witness: the sample renderer at frame cursor 0; the fence of
slot 0 (handle 12) is waited on but never reset. -/
theorem C10_begin_frame_stale_path_witness :
    (sampleRenderer 0).begin_frame
        (.error VkResult.ERROR_OUT_OF_DATE_KHR) =
      some (true,
        { voxel_shader := 0
          current_frame := next_frame_cursor 0
          sync_objects := sampleSyncObjects
          command_pool := 7
          swapchain := { sampleSwapchain with out_of_date := true }
          vk_context := 1 },
        [Event.waitForFences
           (sampleSyncObjects.getD 0 default).in_flight_fence,
         Event.acquireNextImage
           (sampleSyncObjects.getD 0 default).image_available_semaphore]) ∧
    (∀ fence : Nat,
      Event.resetFences fence ∉
        [Event.waitForFences
           (sampleSyncObjects.getD 0 default).in_flight_fence,
         Event.acquireNextImage
           (sampleSyncObjects.getD 0 default).image_available_semaphore]) :=
  C10_begin_frame_stale_path (sampleRenderer 0) (by decide)

end Industria
